import Mathlib

/-!
Verification of the S1MCPServer tool handlers
(`src/S1MCPClient/src/tools/load_manager_tools.py` and
`src/S1MCPClient/src/tools/log_tools.py`).

The handlers are pure request/response mappers: they read an argument
mapping, optionally dispatch one RPC call through an external TCP client
(`call_with_retry`), and format the JSON result (or the error) into text
blocks. We shallowly embed the Python code: JSON values become an
inductive type, Python dictionaries become association lists with
first-match lookup, the RPC client becomes a function from method name
and payload to an outcome (a response or a raised exception), and each
handler returns its text output together with the trace of RPC calls it
made and the log events it emitted. Python operations whose semantics
the code relies on (truthiness, `str()`, `len()`, iteration,
`dict.get`) are modelled explicitly; operations that can raise
(`len`, iteration, `.get` on a non-dict) return `Except`, and the
handler catches at its boundary exactly as the Python `try/except` does.
-/

/-- A JSON-like Python value as exchanged with the RPC client.
Numbers are modelled as integers (the protocol uses counts, line
numbers and slot indices). Objects are association lists; Python
dictionaries have unique keys and all access below goes through
first-match lookup, so duplicate keys never matter. -/
inductive Json where
  | null : Json
  | bool : Bool → Json
  | num : Int → Json
  | str : String → Json
  | arr : List Json → Json
  | obj : List (String × Json) → Json

/-- First-match lookup in an association list: the semantics of
`d[k]` / `k in d` for a Python dict modelled as an association list. -/
def argLookup : List (String × Json) → String → Option Json
  | [], _ => none
  | (k', v) :: rest, k => if k = k' then some v else argLookup rest k

/-- `j.get? k`: key lookup on a JSON value; `none` when `j` is not an
object or the key is absent. -/
def Json.get? : Json → String → Option Json
  | .obj kvs, k => argLookup kvs k
  | _, _ => none

/-- Python `d.get(k, default)` on a JSON object. -/
def Json.getD (j : Json) (k : String) (d : Json) : Json :=
  (j.get? k).getD d

/-- Python `isinstance(v, dict)`. -/
def Json.isDict : Json → Bool
  | .obj _ => true
  | _ => false

/-- Python `v is None`. -/
def Json.isNull : Json → Bool
  | .null => true
  | _ => false

/-- Python truthiness of a JSON-like value: `None`, `False`, `0`, `""`,
`[]` and `{}` are falsy, everything else is truthy. -/
def pyTruthy : Json → Bool
  | .null => false
  | .bool b => b
  | .num n => n != 0
  | .str s => s != ""
  | .arr xs => !xs.isEmpty
  | .obj kvs => !kvs.isEmpty

/-- Python `len()`: defined on strings, lists and dicts, raises
`TypeError` otherwise. -/
def pyLen : Json → Except String Nat
  | .str s => .ok s.length
  | .arr xs => .ok xs.length
  | .obj kvs => .ok kvs.length
  | _ => .error "TypeError: object has no len()"

/-- Python iteration: a list yields its elements, a string its
characters (as length-1 strings), a dict its keys; anything else
raises `TypeError`. -/
def pyIter : Json → Except String (List Json)
  | .arr xs => .ok xs
  | .str s => .ok (s.data.map (fun c => Json.str (String.mk [c])))
  | .obj kvs => .ok (kvs.map (fun kv => Json.str kv.1))
  | _ => .error "TypeError: object is not iterable"

mutual

/-- Python `repr()` of a JSON-like value (string escaping abstracted:
a string is rendered between single quotes verbatim). -/
def pyRepr : Json → String
  | .null => "None"
  | .bool true => "True"
  | .bool false => "False"
  | .num n => toString n
  | .str s => "\x27" ++ s ++ "\x27"
  | .arr xs => "[" ++ String.intercalate ", " (pyReprList xs) ++ "]"
  | .obj kvs => "\x7b" ++ String.intercalate ", " (pyReprKVs kvs) ++ "\x7d"

/-- `repr` of each element of a Python list. -/
def pyReprList : List Json → List String
  | [] => []
  | x :: xs => pyRepr x :: pyReprList xs

/-- `repr` of each `key: value` entry of a Python dict. -/
def pyReprKVs : List (String × Json) → List String
  | [] => []
  | (k, v) :: rest => ("\x27" ++ k ++ "\x27: " ++ pyRepr v) :: pyReprKVs rest

end

/-- Python `str()` of a JSON-like value, as used by f-string
interpolation: a string renders as itself, everything else as its
`repr`. -/
def pyStr : Json → String
  | .str s => s
  | v => pyRepr v

mutual

/-- `json.dumps` of a JSON value (whitespace/indentation abstracted:
the handlers use `indent=2`, and no property proved below depends on
the whitespace of the rendering; string escaping abstracted). -/
def dumps : Json → String
  | .null => "null"
  | .bool true => "true"
  | .bool false => "false"
  | .num n => toString n
  | .str s => "\"" ++ s ++ "\""
  | .arr xs => "[" ++ String.intercalate ", " (dumpsList xs) ++ "]"
  | .obj kvs => "\x7b" ++ String.intercalate ", " (dumpsKVs kvs) ++ "\x7d"

/-- `json.dumps` of each element of a list. -/
def dumpsList : List Json → List String
  | [] => []
  | x :: xs => dumps x :: dumpsList xs

/-- `json.dumps` of each `"key": value` entry of an object. -/
def dumpsKVs : List (String × Json) → List String
  | [] => []
  | (k, v) :: rest => ("\"" ++ k ++ "\": " ++ dumps v) :: dumpsKVs rest

end

/-- `mcp.types.TextContent`: one text block of the handler output. -/
structure TextContent where
  type : String
  text : String
deriving DecidableEq

/-- Builds the `TextContent(type="text", text=...)` value every
handler returns. -/
def textContent (s : String) : TextContent :=
  ⟨"text", s⟩

/-- The `error` field of an RPC response: remote code and message. -/
structure RpcError where
  code : Int
  message : String

/-- An `RpcResponse`: a result value (JSON `null` when absent) and an
optional error object. -/
structure RpcResponse where
  result : Json
  error : Option RpcError

/-- Outcome of one `call_with_retry` invocation: either a response or
a raised exception carrying its text `str(e)`. -/
inductive RpcOutcome where
  | ok : RpcResponse → RpcOutcome
  | raise : String → RpcOutcome

/-- The external TCP client: `call_with_retry(method, params)`
modelled as a function of the method name and the JSON payload. -/
def Client : Type :=
  String → Json → RpcOutcome

/-- One logger event, at debug or error level. -/
inductive LogEvent where
  | debug : String → LogEvent
  | error : String → LogEvent

/-- Whether a log event is at error level. -/
def LogEvent.isError : LogEvent → Bool
  | .error _ => true
  | .debug _ => false

/-- What one handler invocation produced: the text blocks returned to
the MCP host, the trace of RPC calls made (method and payload, in
order), and the log events emitted (in order). The Python handlers
never raise past their boundary (`try/except` at the top level), which
the embedding reflects by being a total function into this type. -/
structure HandlerResult where
  output : List TextContent
  calls : List (String × Json)
  logs : List LogEvent

/-- `handle_s1_list_saves` from `load_manager_tools.py` (lines 55-78):
sends RPC `list_saves` with an empty payload; on remote error renders
`Error: {message} (code: {code})`; on success dumps the result,
prefixed by a `Found {count} save game(s):` summary when the result is
a dict containing a `saves` key; a raised exception is caught, logged,
and rendered as `Error: {text}`. -/
def handle_s1_list_saves (_arguments : List (String × Json)) (client : Client) :
    HandlerResult :=
  let call := ("list_saves", Json.obj [])
  match client "list_saves" (Json.obj []) with
  | .raise e =>
      { output := [textContent ("Error: " ++ e)],
        calls := [call],
        logs := [LogEvent.error ("Error in s1_list_saves: " ++ e)] }
  | .ok response =>
      match response.error with
      | some err =>
          { output := [textContent ("Error: " ++ err.message ++ " (code: " ++
              toString err.code ++ ")")],
            calls := [call],
            logs := [] }
      | none =>
          let result_text := dumps response.result
          if response.result.isDict && (response.result.get? "saves").isSome then
            let save_count := response.result.getD "count" (Json.num 0)
            { output := [textContent ("Found " ++ pyStr save_count ++
                " save game(s):\n\n" ++ result_text)],
              calls := [call],
              logs := [] }
          else
            { output := [textContent result_text],
              calls := [call],
              logs := [] }

/-- `handle_s1_load_save` from `load_manager_tools.py` (lines 81-116):
`arguments.get("slot_index")` is `None` exactly when the key is absent
or maps to JSON null, in which case the handler short-circuits with
`Error: slot_index parameter is required` and makes no RPC call.
Otherwise it sends RPC `load_save` with payload `{"slot_index": v}`;
remote errors render as `Error: {message} (code: {code})`; on success,
a dict result renders as `✓ {message}` (the `success` field is read
but unused by the Python code) with a menu note appended when
`returned_to_menu` is truthy, and a non-dict result is JSON-dumped;
raised exceptions are caught, logged and rendered as `Error: {text}`. -/
def handle_s1_load_save (arguments : List (String × Json)) (client : Client) :
    HandlerResult :=
  let slot_index := (argLookup arguments "slot_index").getD Json.null
  if slot_index.isNull then
    { output := [textContent "Error: slot_index parameter is required"],
      calls := [],
      logs := [] }
  else
    let payload := Json.obj [("slot_index", slot_index)]
    let call := ("load_save", payload)
    match client "load_save" payload with
    | .raise e =>
        { output := [textContent ("Error: " ++ e)],
          calls := [call],
          logs := [LogEvent.error ("Error in s1_load_save: " ++ e)] }
    | .ok response =>
        match response.error with
        | some err =>
            { output := [textContent ("Error: " ++ err.message ++ " (code: " ++
                toString err.code ++ ")")],
              calls := [call],
              logs := [] }
        | none =>
            if response.result.isDict then
              let _success := response.result.getD "success" (Json.bool false)
              let message := response.result.getD "message" (Json.str "")
              let returned_to_menu :=
                response.result.getD "returned_to_menu" (Json.bool false)
              let status_text := "✓ " ++ pyStr message ++
                (if pyTruthy returned_to_menu then
                  "\n  Note: Game was returned to menu before loading the save."
                else "")
              { output := [textContent status_text],
                calls := [call],
                logs := [] }
            else
              { output := [textContent (dumps response.result)],
                calls := [call],
                logs := [] }

/-- The seven optional `capture_logs` parameters, in the order the
handler checks them (lines 78-97 of `log_tools.py`). -/
def captureLogKeys : List String :=
  ["last_n_lines", "first_n_lines", "keyword", "from_timestamp",
   "to_timestamp", "include_pattern", "exclude_pattern"]

/-- The sparse RPC payload `params` built by `handle_s1_capture_logs`
(lines 76-97): exactly the recognised keys present in `arguments`,
each with its value forwarded unmodified, in the fixed check order. -/
def buildCaptureParams (arguments : List (String × Json)) :
    List (String × Json) :=
  captureLogKeys.filterMap
    (fun k => (argLookup arguments k).map (fun v => (k, v)))

/-- The `🔍 Filters Applied` block (lines 132-135): when
`filters_applied` is truthy, a header followed by one bullet per
iterated element; iterating a non-iterable raises. -/
def filtersBlock (filters_applied : Json) : Except String (List String) :=
  if pyTruthy filters_applied then
    match pyIter filters_applied with
    | .ok items =>
        .ok ("\n🔍 Filters Applied:" ::
          items.map (fun d => "  • " ++ pyStr d))
    | .error e => .error e
  else
    .ok []

/-- Rendering of one element of `lines` (lines 139-147): `.get` on a
non-dict raises `AttributeError`; a line renders as
`[Line {n}] [{ts}] {content}` when its timestamp is truthy and as
`[Line {n}] {content}` otherwise. -/
def renderLine (line_obj : Json) : Except String String :=
  if line_obj.isDict then
    let line_num := line_obj.getD "line_number" (Json.str "?")
    let timestamp := line_obj.getD "timestamp" (Json.str "")
    let content := line_obj.getD "content" (Json.str "")
    if pyTruthy timestamp then
      .ok ("[Line " ++ pyStr line_num ++ "] [" ++ pyStr timestamp ++ "] " ++
        pyStr content)
    else
      .ok ("[Line " ++ pyStr line_num ++ "] " ++ pyStr content)
  else
    .error "AttributeError: object has no attribute get"

/-- Renders the elements of `lines` in order, stopping at the first
element that raises (the Python loop raises at the first bad element). -/
def renderLines : List Json → Except String (List String)
  | [] => .ok []
  | l :: ls =>
      match renderLine l with
      | .error e => .error e
      | .ok s =>
          match renderLines ls with
          | .error e => .error e
          | .ok ss => .ok (s :: ss)

/-- The `📝 Log Lines` block (lines 137-149): when `lines` is truthy, a
header followed by one rendered line per iterated element; when falsy,
the explicit no-match notice. -/
def linesBlock (lines : Json) : Except String (List String) :=
  if pyTruthy lines then
    match pyIter lines with
    | .error e => .error e
    | .ok items =>
        match renderLines items with
        | .error e => .error e
        | .ok rendered => .ok ("\n📝 Log Lines:\n" :: rendered)
  else
    .ok ["\n(No log lines matched the filters)"]

/-- The success-path formatting of `handle_s1_capture_logs` (lines
110-151), carried out on `response.result`: a non-dict result is
returned via `str()`; a dict result yields the warning line (when the
`warning` field is truthy), the summary block, the filters block and
the lines block, joined with newlines. Raising operations
(`len(lines)`, iteration, `.get`) surface as `Except.error` in the
order the Python code executes them. -/
def formatCaptureResult (result : Json) : Except String (List TextContent) :=
  if result.isDict = false then
    .ok [textContent (pyStr result)]
  else
    let lines := result.getD "lines" (Json.arr [])
    let total_lines := result.getD "total_lines_in_file" (Json.num 0)
    let filtered_count := result.getD "filtered_count" (Json.num 0)
    let filters_applied := result.getD "filters_applied" (Json.arr [])
    let warning := result.getD "warning" Json.null
    match pyLen lines with
    | .error e => .error e
    | .ok n =>
        match filtersBlock filters_applied with
        | .error e => .error e
        | .ok fb =>
            match linesBlock lines with
            | .error e => .error e
            | .ok lb =>
                .ok [textContent (String.intercalate "\n"
                  ((if pyTruthy warning then
                      ["⚠️ Warning: " ++ pyStr warning ++ "\n"]
                    else []) ++
                   ["📊 Log Summary:",
                    "  • Total lines in file: " ++ pyStr total_lines,
                    "  • Lines after filtering: " ++ pyStr filtered_count,
                    "  • Lines returned: " ++ toString n] ++
                   fb ++ lb))]

/-- `handle_s1_capture_logs` from `log_tools.py` (lines 72-155): builds
the sparse params, logs them at debug level, dispatches RPC
`capture_logs`, renders remote errors as `Error: {message} (code:
{code})`, formats successful results via `formatCaptureResult`, and
catches any raised exception, logging it and rendering `Error: {text}`. -/
def handle_s1_capture_logs (arguments : List (String × Json)) (client : Client) :
    HandlerResult :=
  let params := buildCaptureParams arguments
  let debugLog := LogEvent.debug
    ("Capturing logs with params: " ++ pyRepr (Json.obj params))
  let call := ("capture_logs", Json.obj params)
  match client "capture_logs" (Json.obj params) with
  | .raise e =>
      { output := [textContent ("Error: " ++ e)],
        calls := [call],
        logs := [debugLog, LogEvent.error ("Error in s1_capture_logs: " ++ e)] }
  | .ok response =>
      match response.error with
      | some err =>
          { output := [textContent ("Error: " ++ err.message ++ " (code: " ++
              toString err.code ++ ")")],
            calls := [call],
            logs := [debugLog] }
      | none =>
          match formatCaptureResult response.result with
          | .ok texts =>
              { output := texts,
                calls := [call],
                logs := [debugLog] }
          | .error e =>
              { output := [textContent ("Error: " ++ e)],
                calls := [call],
                logs := [debugLog,
                  LogEvent.error ("Error in s1_capture_logs: " ++ e)] }

/-- A client that returns the given result successfully on every call. -/
def okClient (r : Json) : Client :=
  fun _ _ => .ok ⟨r, none⟩

/-- A client that returns the given remote error on every call. -/
def errClient (c : Int) (m : String) (r : Json) : Client :=
  fun _ _ => .ok ⟨r, some ⟨c, m⟩⟩

/-- A client that raises with the given text on every call. -/
def raiseClient (t : String) : Client :=
  fun _ _ => .raise t

/-- The text of one log line as rendered by the handler when the line
object is a dict (the successful case of `renderLine`):
`[Line {n}] [{ts}] {content}` when the timestamp is truthy, else
`[Line {n}] {content}`, all fields rendered by `str()` with the
defaults `"?"` / `""` / `""`. -/
def renderedLogLine (l : Json) : String :=
  if pyTruthy (l.getD "timestamp" (Json.str "")) then
    "[Line " ++ pyStr (l.getD "line_number" (Json.str "?")) ++ "] [" ++
      pyStr (l.getD "timestamp" (Json.str "")) ++ "] " ++
      pyStr (l.getD "content" (Json.str ""))
  else
    "[Line " ++ pyStr (l.getD "line_number" (Json.str "?")) ++ "] " ++
      pyStr (l.getD "content" (Json.str ""))

/-! ## Supporting lemmas -/

/-- Looking a key up in a payload built by filtering a key list against
an argument mapping gives the argument value exactly on the listed
keys, and nothing elsewhere. -/
theorem argLookup_filterMap_keys (keys : List String)
    (arguments : List (String × Json)) (k : String) :
    argLookup (keys.filterMap
        (fun k' => (argLookup arguments k').map (fun v => (k', v)))) k
      = if k ∈ keys then argLookup arguments k else none := by
  induction keys with
  | nil => simp [argLookup]
  | cons k0 rest ih =>
    rw [List.filterMap_cons]
    by_cases hk : k = k0
    · subst hk
      cases h0 : argLookup arguments k with
      | none => simp [h0, ih]
      | some v => simp [h0, argLookup]
    · cases h0 : argLookup arguments k0 with
      | none => simp [h0, ih, hk]
      | some v => simp [h0, argLookup, hk, ih]

/-- The `capture_logs` payload lookup: each of the seven recognised
keys maps to its argument value (absent when absent), and no other key
occurs. -/
theorem argLookup_buildCaptureParams (arguments : List (String × Json))
    (k : String) :
    argLookup (buildCaptureParams arguments) k
      = if k ∈ captureLogKeys then argLookup arguments k else none :=
  argLookup_filterMap_keys captureLogKeys arguments k

/-- A successful `formatCaptureResult` always yields a non-empty
output (in fact a single block). -/
theorem formatCaptureResult_ok_ne_nil (result : Json)
    (ts : List TextContent) (h : formatCaptureResult result = .ok ts) :
    ts ≠ [] := by
  unfold formatCaptureResult at h
  split at h
  · cases h
    simp
  · dsimp only at h
    split at h
    · cases h
    · split at h
      · cases h
      · split at h
        · cases h
        · cases h
          simp

/-! ## Claim theorems -/

/-- C1: for every argument mapping that does not contain the key
`slot_index` (and any behaviour of the RPC client), `load_save`
returns exactly the single text block
`Error: slot_index parameter is required` and performs no RPC call. -/
theorem load_save_missing_slot_index (arguments : List (String × Json))
    (client : Client) (h : argLookup arguments "slot_index" = none) :
    (handle_s1_load_save arguments client).output
        = [textContent "Error: slot_index parameter is required"] ∧
    (handle_s1_load_save arguments client).calls = [] := by
  simp [handle_s1_load_save, h, Json.isNull]

/-- Witness for C1 at a concrete input: an argument mapping with an
unrelated key and a client that would answer successfully. -/
theorem load_save_missing_slot_index_witness :
    (handle_s1_load_save [("foo", Json.num 1)] (okClient Json.null)).output
        = [textContent "Error: slot_index parameter is required"] ∧
    (handle_s1_load_save [("foo", Json.num 1)] (okClient Json.null)).calls
        = [] :=
  load_save_missing_slot_index [("foo", Json.num 1)] (okClient Json.null) rfl

/-- C2: whenever the RPC client answers with a response whose error
field is populated with code `c` and message `m`, each handler returns
exactly the single block `Error: {m} (code: {c})` — in particular the
output contains that substring and, the result value `result` being
universally quantified on the left of the equality, the result field
is never rendered. `load_save` reaches its RPC call only when
`slot_index` is supplied and non-null. -/
theorem handlers_render_remote_error (arguments : List (String × Json))
    (result : Json) (c : Int) (m : String) (client : Client)
    (h : ∀ method params, client method params
        = .ok ⟨result, some ⟨c, m⟩⟩) :
    (handle_s1_list_saves arguments client).output
        = [textContent ("Error: " ++ m ++ " (code: " ++ toString c ++ ")")] ∧
    (handle_s1_capture_logs arguments client).output
        = [textContent ("Error: " ++ m ++ " (code: " ++ toString c ++ ")")] ∧
    (∀ v, argLookup arguments "slot_index" = some v → v.isNull = false →
      (handle_s1_load_save arguments client).output
        = [textContent ("Error: " ++ m ++ " (code: " ++ toString c ++ ")")]) := by
  refine ⟨?_, ?_, ?_⟩
  · simp [handle_s1_list_saves, h]
  · simp [handle_s1_capture_logs, h]
  · intro v hv hvn
    simp [handle_s1_load_save, hv, hvn, h]

/-- Witness for C2 at a concrete input: code 7, message `boom`, a
result value that must not leak into the output, and `slot_index = 0`. -/
theorem handlers_render_remote_error_witness :
    (handle_s1_list_saves [("slot_index", Json.num 0)]
        (errClient 7 "boom" (Json.str "sekret"))).output
        = [textContent "Error: boom (code: 7)"] ∧
    (handle_s1_capture_logs [("slot_index", Json.num 0)]
        (errClient 7 "boom" (Json.str "sekret"))).output
        = [textContent "Error: boom (code: 7)"] ∧
    (handle_s1_load_save [("slot_index", Json.num 0)]
        (errClient 7 "boom" (Json.str "sekret"))).output
        = [textContent "Error: boom (code: 7)"] := by
  have h := handlers_render_remote_error [("slot_index", Json.num 0)]
    (Json.str "sekret") 7 "boom" (errClient 7 "boom" (Json.str "sekret"))
    (fun _ _ => rfl)
  exact ⟨h.1, h.2.1, h.2.2 (Json.num 0) rfl rfl⟩

/-- C3: whenever the RPC client raises an exception with text `t`,
each handler catches it (the embedding is total, so nothing propagates
past the handler boundary), returns exactly the single block
`Error: {t}`, and emits exactly one error-level log event. `load_save`
reaches its RPC call only when `slot_index` is supplied and non-null. -/
theorem handlers_catch_raised_exception (arguments : List (String × Json))
    (t : String) (client : Client)
    (h : ∀ method params, client method params = .raise t) :
    ((handle_s1_list_saves arguments client).output
        = [textContent ("Error: " ++ t)] ∧
      ((handle_s1_list_saves arguments client).logs.filter
        LogEvent.isError).length = 1) ∧
    ((handle_s1_capture_logs arguments client).output
        = [textContent ("Error: " ++ t)] ∧
      ((handle_s1_capture_logs arguments client).logs.filter
        LogEvent.isError).length = 1) ∧
    (∀ v, argLookup arguments "slot_index" = some v → v.isNull = false →
      (handle_s1_load_save arguments client).output
        = [textContent ("Error: " ++ t)] ∧
      ((handle_s1_load_save arguments client).logs.filter
        LogEvent.isError).length = 1) := by
  refine ⟨?_, ?_, ?_⟩
  · constructor
    · simp [handle_s1_list_saves, h]
    · simp [handle_s1_list_saves, h, LogEvent.isError]
  · constructor
    · simp [handle_s1_capture_logs, h]
    · simp [handle_s1_capture_logs, h, LogEvent.isError]
  · intro v hv hvn
    constructor
    · simp [handle_s1_load_save, hv, hvn, h]
    · simp [handle_s1_load_save, hv, hvn, h, LogEvent.isError]

/-- Witness for C3 at a concrete input: a client raising with text
`conn refused` and `slot_index = 0`. -/
theorem handlers_catch_raised_exception_witness :
    ((handle_s1_list_saves [("slot_index", Json.num 0)]
        (raiseClient "conn refused")).output
        = [textContent "Error: conn refused"] ∧
      ((handle_s1_list_saves [("slot_index", Json.num 0)]
        (raiseClient "conn refused")).logs.filter
        LogEvent.isError).length = 1) ∧
    ((handle_s1_capture_logs [("slot_index", Json.num 0)]
        (raiseClient "conn refused")).output
        = [textContent "Error: conn refused"] ∧
      ((handle_s1_capture_logs [("slot_index", Json.num 0)]
        (raiseClient "conn refused")).logs.filter
        LogEvent.isError).length = 1) ∧
    ((handle_s1_load_save [("slot_index", Json.num 0)]
        (raiseClient "conn refused")).output
        = [textContent "Error: conn refused"] ∧
      ((handle_s1_load_save [("slot_index", Json.num 0)]
        (raiseClient "conn refused")).logs.filter
        LogEvent.isError).length = 1) := by
  have h := handlers_catch_raised_exception [("slot_index", Json.num 0)]
    "conn refused" (raiseClient "conn refused") (fun _ _ => rfl)
  exact ⟨h.1, h.2.1, h.2.2 (Json.num 0) rfl rfl⟩

/-- C4: for every argument mapping, `capture_logs` makes exactly one
RPC call, with method `capture_logs` and the sparse payload
`buildCaptureParams arguments`; that payload maps each of the seven
recognised keys to its unmodified argument value (absent when absent)
and contains no other key; with no arguments the payload is empty, and
with `last_n_lines = 50, keyword = "error"` it is exactly those two
entries. -/
theorem capture_logs_sparse_payload (arguments : List (String × Json))
    (client : Client) :
    (handle_s1_capture_logs arguments client).calls
        = [("capture_logs", Json.obj (buildCaptureParams arguments))] ∧
    (∀ k, argLookup (buildCaptureParams arguments) k
        = if k ∈ captureLogKeys then argLookup arguments k else none) ∧
    buildCaptureParams [] = [] ∧
    buildCaptureParams
        [("last_n_lines", Json.num 50), ("keyword", Json.str "error")]
      = [("last_n_lines", Json.num 50), ("keyword", Json.str "error")] := by
  refine ⟨?_, argLookup_buildCaptureParams arguments, rfl, rfl⟩
  cases hc : client "capture_logs" (Json.obj (buildCaptureParams arguments)) with
  | raise e => simp [handle_s1_capture_logs, hc]
  | ok response =>
    cases he : response.error with
    | some err => simp [handle_s1_capture_logs, hc, he]
    | none =>
      cases hf : formatCaptureResult response.result with
      | ok ts => simp [handle_s1_capture_logs, hc, he, hf]
      | error e => simp [handle_s1_capture_logs, hc, he, hf]

/-- C5 counterexample: with `slot_index = 0` and a successful result
whose `returned_to_menu` field is the string `"yes"` — a value that is
not the boolean `true` — the handler still appends the
returned-to-menu note, because the Python code tests the field for
truthiness, not for equality with `True`. This refutes the claimed
biconditional "appended iff the field is true". -/
theorem load_save_menu_note_counterexample :
    (handle_s1_load_save [("slot_index", Json.num 0)]
        (okClient (Json.obj [("message", Json.str "hi"),
          ("returned_to_menu", Json.str "yes")]))).output
      = [textContent
          "✓ hi\n  Note: Game was returned to menu before loading the save."] ∧
    (Json.obj [("message", Json.str "hi"),
        ("returned_to_menu", Json.str "yes")]).get? "returned_to_menu"
      = some (Json.str "yes") := by
  exact ⟨rfl, rfl⟩

/-- C5 amended: for every successful response, given `slot_index`
supplied and non-null, a structured (dict) result renders as the
single block `✓ {message}` (field rendered by `str()`, defaulting to
the empty string when absent), with the returned-to-menu note appended
if and only if the `returned_to_menu` field is truthy under Python
truthiness (so in particular for the boolean `true`, and never when
the field is absent or `false`); a non-dict result renders as its JSON
dump instead. -/
theorem load_save_success_format (arguments : List (String × Json))
    (v result : Json) (client : Client)
    (hv : argLookup arguments "slot_index" = some v)
    (hvn : v.isNull = false)
    (hc : ∀ method params, client method params = .ok ⟨result, none⟩) :
    (handle_s1_load_save arguments client).output
      = [textContent (if result.isDict then
          "✓ " ++ pyStr (result.getD "message" (Json.str "")) ++
            (if pyTruthy (result.getD "returned_to_menu" (Json.bool false))
              then "\n  Note: Game was returned to menu before loading the save."
              else "")
          else dumps result)] := by
  cases hd : result.isDict with
  | true => simp [handle_s1_load_save, hv, hvn, hc, hd]
  | false => simp [handle_s1_load_save, hv, hvn, hc, hd]

/-- Witness for the amended C5 at a concrete input: result
`{success: true, message: "Loaded slot 2", returned_to_menu: true}`
yields the checkmark line plus the note. -/
theorem load_save_success_format_witness :
    (handle_s1_load_save [("slot_index", Json.num 0)]
        (okClient (Json.obj [("success", Json.bool true),
          ("message", Json.str "Loaded slot 2"),
          ("returned_to_menu", Json.bool true)]))).output
      = [textContent
          "✓ Loaded slot 2\n  Note: Game was returned to menu before loading the save."] := by
  have h := load_save_success_format [("slot_index", Json.num 0)]
    (Json.num 0)
    (Json.obj [("success", Json.bool true),
      ("message", Json.str "Loaded slot 2"),
      ("returned_to_menu", Json.bool true)])
    (okClient (Json.obj [("success", Json.bool true),
      ("message", Json.str "Loaded slot 2"),
      ("returned_to_menu", Json.bool true)]))
    rfl rfl (fun _ _ => rfl)
  simpa using h

/-- C6: for every successful response, `list_saves` returns a single
block: when the result is a dict containing a `saves` key, the line
`Found {count} save game(s):` (the `count` field rendered by `str()`,
defaulting to 0 when absent) followed by the JSON dump of the full
result; otherwise the JSON dump alone. -/
theorem list_saves_success_format (arguments : List (String × Json))
    (result : Json) (client : Client)
    (hc : ∀ method params, client method params = .ok ⟨result, none⟩) :
    (handle_s1_list_saves arguments client).output
      = [textContent
          (if result.isDict && (result.get? "saves").isSome then
            "Found " ++ pyStr (result.getD "count" (Json.num 0)) ++
              " save game(s):\n\n" ++ dumps result
          else dumps result)] := by
  cases hd : result.isDict && (result.get? "saves").isSome with
  | true => simp [handle_s1_list_saves, hc, hd]
  | false => simp [handle_s1_list_saves, hc, hd]

/-- Witness for C6 at a concrete input: result
`{saves: [{name: "a"}], count: 3}` yields the `Found 3 save game(s):`
summary followed by the dump of the full result. -/
theorem list_saves_success_format_witness :
    (handle_s1_list_saves []
        (okClient (Json.obj [("saves", Json.arr [Json.obj [("name", Json.str "a")]]),
          ("count", Json.num 3)]))).output
      = [textContent ("Found 3 save game(s):\n\n" ++
          dumps (Json.obj [("saves", Json.arr [Json.obj [("name", Json.str "a")]]),
            ("count", Json.num 3)]))] := by
  have h := list_saves_success_format []
    (Json.obj [("saves", Json.arr [Json.obj [("name", Json.str "a")]]),
      ("count", Json.num 3)])
    (okClient (Json.obj [("saves", Json.arr [Json.obj [("name", Json.str "a")]]),
      ("count", Json.num 3)]))
    (fun _ _ => rfl)
  simpa using h

/-- C8: for every argument mapping and every behaviour of the RPC
client (success with any result, remote error, or raised exception),
each of the three handlers returns a non-empty output. -/
theorem handlers_output_nonempty (arguments : List (String × Json))
    (client : Client) :
    (handle_s1_list_saves arguments client).output ≠ [] ∧
    (handle_s1_load_save arguments client).output ≠ [] ∧
    (handle_s1_capture_logs arguments client).output ≠ [] := by
  refine ⟨?_, ?_, ?_⟩
  · cases hc : client "list_saves" (Json.obj []) with
    | raise e => simp [handle_s1_list_saves, hc]
    | ok response =>
      cases he : response.error with
      | some err => simp [handle_s1_list_saves, hc, he]
      | none =>
        cases hd : response.result.isDict && (response.result.get? "saves").isSome with
        | true => simp [handle_s1_list_saves, hc, he, hd]
        | false => simp [handle_s1_list_saves, hc, he, hd]
  · cases hn : ((argLookup arguments "slot_index").getD Json.null).isNull with
    | true => simp [handle_s1_load_save, hn]
    | false =>
      cases hc : client "load_save"
          (Json.obj [("slot_index",
            (argLookup arguments "slot_index").getD Json.null)]) with
      | raise e => simp [handle_s1_load_save, hn, hc]
      | ok response =>
        cases he : response.error with
        | some err => simp [handle_s1_load_save, hn, hc, he]
        | none =>
          cases hd : response.result.isDict with
          | true => simp [handle_s1_load_save, hn, hc, he, hd]
          | false => simp [handle_s1_load_save, hn, hc, he, hd]
  · cases hc : client "capture_logs" (Json.obj (buildCaptureParams arguments)) with
    | raise e => simp [handle_s1_capture_logs, hc]
    | ok response =>
      cases he : response.error with
      | some err => simp [handle_s1_capture_logs, hc, he]
      | none =>
        cases hf : formatCaptureResult response.result with
        | ok ts =>
          have := formatCaptureResult_ok_ne_nil response.result ts hf
          simp [handle_s1_capture_logs, hc, he, hf, this]
        | error e => simp [handle_s1_capture_logs, hc, he, hf]

/-- C9: the `load_save` output never depends on the `success` field of
a successful dict result: two clients answering with dict results that
agree on every key other than `success` (in particular results that
differ only in the value or presence of `success`) produce identical
output. -/
theorem load_save_ignores_success_field (arguments : List (String × Json))
    (v : Json) (kv1 kv2 : List (String × Json)) (c1 c2 : Client)
    (hv : argLookup arguments "slot_index" = some v)
    (hvn : v.isNull = false)
    (h1 : ∀ method params, c1 method params = .ok ⟨Json.obj kv1, none⟩)
    (h2 : ∀ method params, c2 method params = .ok ⟨Json.obj kv2, none⟩)
    (hagree : ∀ k, k ≠ "success" → argLookup kv1 k = argLookup kv2 k) :
    (handle_s1_load_save arguments c1).output
      = (handle_s1_load_save arguments c2).output := by
  have hm := hagree "message" (by decide)
  have hr := hagree "returned_to_menu" (by decide)
  simp [handle_s1_load_save, hv, hvn, h1, h2, Json.isDict, Json.getD,
    Json.get?, hm, hr]

/-- Witness for C9 at a concrete input: `{success: true}` versus the
empty result produce the same output. -/
theorem load_save_ignores_success_field_witness :
    (handle_s1_load_save [("slot_index", Json.num 0)]
        (okClient (Json.obj [("success", Json.bool true)]))).output
      = (handle_s1_load_save [("slot_index", Json.num 0)]
        (okClient (Json.obj []))).output := by
  refine load_save_ignores_success_field [("slot_index", Json.num 0)]
    (Json.num 0) [("success", Json.bool true)] [] _ _ rfl rfl
    (fun _ _ => rfl) (fun _ _ => rfl) ?_
  intro k hk
  simp [argLookup, hk]

/-- C10: for every successful response whose result is not a dict
(including an absent/null result), `capture_logs` returns exactly one
block whose text is the Python `str()` rendering of the result — not
its JSON dump and not the structured report. -/
theorem capture_logs_nondict_result (arguments : List (String × Json))
    (result : Json) (client : Client)
    (hc : ∀ method params, client method params = .ok ⟨result, none⟩)
    (hnd : result.isDict = false) :
    (handle_s1_capture_logs arguments client).output
      = [textContent (pyStr result)] := by
  simp [handle_s1_capture_logs, hc, formatCaptureResult, hnd]

/-- Witness for C10 at a concrete input: a null result renders as the
single block `None` (Python `str(None)`), while its JSON dump would be
`null`. -/
theorem capture_logs_nondict_result_witness :
    (handle_s1_capture_logs [] (okClient Json.null)).output
      = [textContent "None"] := by
  have h := capture_logs_nondict_result [] Json.null (okClient Json.null)
    (fun _ _ => rfl) rfl
  simpa using h

/-- `renderLine` on a dict line object succeeds with the
`renderedLogLine` text. -/
theorem renderLine_dict (l : Json) (hl : l.isDict = true) :
    renderLine l = .ok (renderedLogLine l) := by
  unfold renderLine renderedLogLine
  rw [hl]
  by_cases ht : pyTruthy (l.getD "timestamp" (Json.str "")) = true
  · simp [ht]
  · simp [ht]

/-- `renderLines` on a list of dict line objects succeeds with the
`renderedLogLine` texts in order. -/
theorem renderLines_of_dicts (ls : List Json)
    (hdict : ∀ l ∈ ls, l.isDict = true) :
    renderLines ls = .ok (ls.map renderedLogLine) := by
  induction ls with
  | nil => simp [renderLines]
  | cons l rest ih =>
    have hl := renderLine_dict l (hdict l (by simp))
    have hrest := ih (fun x hx => hdict x (by simp [hx]))
    simp [renderLines, hl, hrest]

/-- `filtersBlock` on a list value: empty yields no block, non-empty
yields the header plus one bullet per element. -/
theorem filtersBlock_arr (fs : List Json) :
    filtersBlock (Json.arr fs)
      = .ok (if fs.isEmpty then []
          else "\n🔍 Filters Applied:" ::
            fs.map (fun d => "  • " ++ pyStr d)) := by
  cases fs with
  | nil => simp [filtersBlock, pyTruthy]
  | cons f rest => simp [filtersBlock, pyTruthy, pyIter]

/-- `linesBlock` on a list of dict line objects: empty yields the
no-match notice, non-empty yields the header plus the rendered lines. -/
theorem linesBlock_arr (ls : List Json)
    (hdict : ∀ l ∈ ls, l.isDict = true) :
    linesBlock (Json.arr ls)
      = .ok (if ls.isEmpty then ["\n(No log lines matched the filters)"]
          else "\n📝 Log Lines:\n" :: ls.map renderedLogLine) := by
  cases ls with
  | nil => simp [linesBlock, pyTruthy]
  | cons l rest =>
    have hr := renderLines_of_dicts (l :: rest) hdict
    simp [linesBlock, pyTruthy, pyIter, hr]

/-- C7 counterexample: a successful dict result whose `warning` field
is present but is the empty string renders no warning line — the
output starts directly with the summary block — because the Python
code tests the field for truthiness, not presence. This refutes the
claim that the warning line is rendered whenever the field is present. -/
theorem capture_logs_warning_counterexample :
    (handle_s1_capture_logs []
        (okClient (Json.obj [("warning", Json.str "")]))).output
      = [textContent
          "📊 Log Summary:\n  • Total lines in file: 0\n  • Lines after filtering: 0\n  • Lines returned: 0\n\n(No log lines matched the filters)"] ∧
    ((Json.obj [("warning", Json.str "")]).get? "warning").isSome = true := by
  exact ⟨rfl, rfl⟩

/-- C7 amended: for every successful dict result whose
`filters_applied` field is a list `fs` (defaulting to empty) and whose
`lines` field is a list `ls` of dict line objects (defaulting to
empty), the handler renders, in order: the warning line when the
`warning` field is present and truthy (not merely present); the
summary block (total lines, filtered count, returned count); the
filters header plus one bullet per element of `fs` when `fs` is
non-empty; and either the lines header followed by each line — rendered
as `[Line {n}] [{ts}] {content}` when its timestamp is truthy and
`[Line {n}] {content}` otherwise, in server-supplied order — when `ls`
is non-empty, or the explicit no-match notice when `ls` is empty. -/
theorem capture_logs_success_format (arguments : List (String × Json))
    (client : Client) (kvs : List (String × Json)) (fs ls : List Json)
    (hfs : (Json.obj kvs).getD "filters_applied" (Json.arr []) = Json.arr fs)
    (hls : (Json.obj kvs).getD "lines" (Json.arr []) = Json.arr ls)
    (hdict : ∀ l ∈ ls, l.isDict = true)
    (hc : ∀ method params, client method params
        = .ok ⟨Json.obj kvs, none⟩) :
    (handle_s1_capture_logs arguments client).output
      = [textContent (String.intercalate "\n"
          ((if pyTruthy ((Json.obj kvs).getD "warning" Json.null) then
              ["⚠️ Warning: " ++
                pyStr ((Json.obj kvs).getD "warning" Json.null) ++ "\n"]
            else []) ++
           ["📊 Log Summary:",
            "  • Total lines in file: " ++
              pyStr ((Json.obj kvs).getD "total_lines_in_file" (Json.num 0)),
            "  • Lines after filtering: " ++
              pyStr ((Json.obj kvs).getD "filtered_count" (Json.num 0)),
            "  • Lines returned: " ++ toString ls.length] ++
           (if fs.isEmpty then []
            else "\n🔍 Filters Applied:" ::
              fs.map (fun d => "  • " ++ pyStr d)) ++
           (if ls.isEmpty then ["\n(No log lines matched the filters)"]
            else "\n📝 Log Lines:\n" :: ls.map renderedLogLine)))] := by
  have hfb := filtersBlock_arr fs
  have hlb := linesBlock_arr ls hdict
  simp [handle_s1_capture_logs, hc, formatCaptureResult, Json.isDict,
    hls, hfs, hfb, hlb, pyLen]

/-- Witness for the amended C7 at a concrete input: a warning, two log
lines (one with and one without a timestamp), and one applied filter. -/
theorem capture_logs_success_format_witness :
    (handle_s1_capture_logs []
        (okClient (Json.obj [("warning", Json.str "w!"),
          ("lines", Json.arr
            [Json.obj [("line_number", Json.num 12),
              ("timestamp", Json.str "12:00:01"),
              ("content", Json.str "hello")],
             Json.obj [("line_number", Json.num 13),
              ("content", Json.str "no ts")]]),
          ("total_lines_in_file", Json.num 99),
          ("filtered_count", Json.num 2),
          ("filters_applied", Json.arr [Json.str "keyword=x"])]))).output
      = [textContent
          "⚠️ Warning: w!\n\n📊 Log Summary:\n  • Total lines in file: 99\n  • Lines after filtering: 2\n  • Lines returned: 2\n\n🔍 Filters Applied:\n  • keyword=x\n\n📝 Log Lines:\n\n[Line 12] [12:00:01] hello\n[Line 13] no ts"] := by
  have h := capture_logs_success_format []
    (okClient (Json.obj [("warning", Json.str "w!"),
      ("lines", Json.arr
        [Json.obj [("line_number", Json.num 12),
          ("timestamp", Json.str "12:00:01"),
          ("content", Json.str "hello")],
         Json.obj [("line_number", Json.num 13),
          ("content", Json.str "no ts")]]),
      ("total_lines_in_file", Json.num 99),
      ("filtered_count", Json.num 2),
      ("filters_applied", Json.arr [Json.str "keyword=x"])]))
    [("warning", Json.str "w!"),
      ("lines", Json.arr
        [Json.obj [("line_number", Json.num 12),
          ("timestamp", Json.str "12:00:01"),
          ("content", Json.str "hello")],
         Json.obj [("line_number", Json.num 13),
          ("content", Json.str "no ts")]]),
      ("total_lines_in_file", Json.num 99),
      ("filtered_count", Json.num 2),
      ("filters_applied", Json.arr [Json.str "keyword=x"])]
    [Json.str "keyword=x"]
    [Json.obj [("line_number", Json.num 12),
      ("timestamp", Json.str "12:00:01"),
      ("content", Json.str "hello")],
     Json.obj [("line_number", Json.num 13),
      ("content", Json.str "no ts")]]
    rfl rfl
    (by intro l hl
        simp only [List.mem_cons, List.mem_singleton] at hl
        rcases hl with rfl | rfl | hl
        · rfl
        · rfl
        · cases hl)
    (fun _ _ => rfl)
  rw [h]
  rfl
